import Mathlib

/-! ARGame: the C interface of the Assimp model loader

A shallow embedding of `ARGame/AssimpModelLoaderCInterface.cpp`: eleven functions with C
linkage that create, destroy and read an `AssimpModelLoader` object through an opaque
`const void*` handle.

The functions are state-passing functions over a `World`: the loader objects that are
alive, keyed by their address, and the list of the life-cycle calls made so far.  A
function returns `none` where the C++ program has undefined behaviour (a handle that does
not point to a live loader is dereferenced or deleted).
-/

namespace ARGame

/-! ## Data model -/

/-- A machine address.  Pointers of every type in the source (`const void*`,
`AssimpModelLoader*`, `const float*`, `const unsigned int*`) are addresses, and the casts
between `const void*` and `AssimpModelLoader*` keep the address. -/
abbrev Ptr := Nat

/-- The null pointer. -/
def nullptr : Ptr := 0

/-- Modelled from the spec: the class `AssimpModelLoader`, declared in
`AssimpModelLoader.hpp`, which is not among the sources.  `Obj` is the type of the value of
one loader object and `R` the type of the result of its load operation.  The class is a
parameter of every definition below: a default constructor, the load-by-path operation,
which changes the object it is called on and no other, and the per-mesh accessors, which
the spec describes as read-only observers of the object ("owned entirely by the underlying
loader instance", "read-only accessors that forward to the underlying object by index").
An `unsigned int` is a natural number (no arithmetic is done on one in this layer), a
`const char*` is the string it points to, and a buffer pointer (`const float*`,
`const unsigned int*`) is an address. -/
structure AssimpModelLoader (Obj R : Type) where
  /-- The constructor `AssimpModelLoader()`. -/
  ctor : Obj
  /-- The method `loadAssimpModel(path)`: its result and the object after the call. -/
  loadAssimpModel : Obj → String → R × Obj
  /-- The method `getNumMeshes()`. -/
  getNumMeshes : Obj → Nat
  /-- The method `getNumVerticesInMesh(index)`. -/
  getNumVerticesInMesh : Obj → Nat → Nat
  /-- The method `getNumIndicesInMesh(index)`. -/
  getNumIndicesInMesh : Obj → Nat → Nat
  /-- The method `getMeshVertices(index)`. -/
  getMeshVertices : Obj → Nat → Ptr
  /-- The method `getMeshIndices(index)`. -/
  getMeshIndices : Obj → Nat → Ptr
  /-- The method `getMeshIsDiffuseMapLoaded(index)`, a `bool` by the comment in the source. -/
  getMeshIsDiffuseMapLoaded : Obj → Nat → Bool
  /-- The method `getMeshDiffuseMap(index)`. -/
  getMeshDiffuseMap : Obj → Nat → String
  /-- The method `getMeshIsSpecularMapLoaded(index)`, a `bool` by the comment in the source. -/
  getMeshIsSpecularMapLoaded : Obj → Nat → Bool
  /-- The method `getMeshSpecularMap(index)`. -/
  getMeshSpecularMap : Obj → Nat → String

/-- A life-cycle call that the interface makes on the underlying class. -/
inductive Call where
  /-- The expression `new AssimpModelLoader()` gave an object at this address. -/
  | construct (p : Ptr)
  /-- The method `loadAssimpModel(path)` was called on the object at this address. -/
  | loadAssimpModel (p : Ptr) (path : String)
  /-- The expression `delete` released the object at this address. -/
  | destruct (p : Ptr)
  deriving DecidableEq, Repr

/-- The state the interface runs in: the loader objects that are alive, by address, and the
life-cycle calls made so far, oldest first. -/
structure World (Obj : Type) where
  /-- The live loader at an address, `none` where no loader is alive. -/
  heap : Ptr → Option Obj
  /-- The life-cycle calls made so far. -/
  calls : List Call

/-- The heap with the object at `p` set to `v`. -/
def World.store {Obj : Type} (w : World Obj) (p : Ptr) (v : Option Obj) : Ptr → Option Obj :=
  fun q => if q = p then v else w.heap q

/-! ## C++ primitives used by the source -/

/-- The expression `new AssimpModelLoader()`.  `p` is the address the allocator hands out,
an input of the model because the allocator is outside the program.  C++ guarantees that it
is not null and is not the address of a live object; for any other `p` the model has no
result. -/
def operatorNew {Obj R : Type} (L : AssimpModelLoader Obj R) (p : Ptr) (w : World Obj) :
    Option (Ptr × World Obj) :=
  if p = nullptr then none
  else
    match w.heap p with
    | some _ => none
    | none => some (p, { heap := w.store p (some L.ctor), calls := w.calls ++ [Call.construct p] })

/-- The expression `delete ptr` for a non-null `ptr`: the object at `ptr` is destroyed and
its storage released.  Undefined when no live loader is at `ptr`. -/
def operatorDelete {Obj : Type} (ptr : Ptr) (w : World Obj) : Option (World Obj) :=
  match w.heap ptr with
  | none => none
  | some _ => some { heap := w.store ptr none, calls := w.calls ++ [Call.destruct ptr] }

/-- The object `ptr->` refers to.  Undefined when no live loader is at `ptr`. -/
def deref {Obj : Type} (w : World Obj) (ptr : Ptr) : Option Obj :=
  w.heap ptr

/-- The statement `ptr->loadAssimpModel(path)`: the object at `ptr` is replaced by the
object after the load, the result of the load is handed to the caller. -/
def callLoadAssimpModel {Obj R : Type} (L : AssimpModelLoader Obj R) (ptr : Ptr)
    (path : String) (w : World Obj) : Option (R × World Obj) :=
  match deref w ptr with
  | none => none
  | some o =>
    some ((L.loadAssimpModel o path).1,
      { heap := w.store ptr (some (L.loadAssimpModel o path).2),
        calls := w.calls ++ [Call.loadAssimpModel ptr path] })

/-- The implicit conversion of a `bool` to `int` at a `return`: `true` is 1, `false` is 0. -/
def boolToInt (b : Bool) : Int :=
  if b then 1 else 0

/-! ## The functions of `AssimpModelLoaderCInterface.cpp` -/

/-- `const void* mlLoadAssimpModel(const char *path)`: create a loader, load the model,
return the pointer to the loader.  The result of `loadAssimpModel` is dropped. -/
def mlLoadAssimpModel {Obj R : Type} (L : AssimpModelLoader Obj R) (p : Ptr) (path : String)
    (w : World Obj) : Option (Ptr × World Obj) :=
  match operatorNew L p w with
  | none => none
  | some (loader, w1) =>
    match callLoadAssimpModel L loader path w1 with
    | none => none
    | some (_, w2) => some (loader, w2)

/-- `void mlDestroyAssimpModelLoader(const void *loader)`: cast, then
`if(ptrLoader) delete ptrLoader;`. -/
def mlDestroyAssimpModelLoader {Obj : Type} (loader : Ptr) (w : World Obj) :
    Option (World Obj) :=
  let ptrLoader : Ptr := loader
  if ptrLoader ≠ nullptr then operatorDelete ptrLoader w else some w

/-- `const unsigned int mlGetNumMeshes(const void *loader)`. -/
def mlGetNumMeshes {Obj R : Type} (L : AssimpModelLoader Obj R) (loader : Ptr)
    (w : World Obj) : Option (Nat × World Obj) :=
  let ptrLoader : Ptr := loader
  match deref w ptrLoader with
  | none => none
  | some o => some (L.getNumMeshes o, w)

/-- `const unsigned int mlGetNumVerticesInMesh(const void *loader, const unsigned int index)`. -/
def mlGetNumVerticesInMesh {Obj R : Type} (L : AssimpModelLoader Obj R) (loader : Ptr)
    (index : Nat) (w : World Obj) : Option (Nat × World Obj) :=
  let ptrLoader : Ptr := loader
  match deref w ptrLoader with
  | none => none
  | some o => some (L.getNumVerticesInMesh o index, w)

/-- `const unsigned int mlGetNumIndicesInMesh(const void *loader, const unsigned int index)`. -/
def mlGetNumIndicesInMesh {Obj R : Type} (L : AssimpModelLoader Obj R) (loader : Ptr)
    (index : Nat) (w : World Obj) : Option (Nat × World Obj) :=
  let ptrLoader : Ptr := loader
  match deref w ptrLoader with
  | none => none
  | some o => some (L.getNumIndicesInMesh o index, w)

/-- `const float* mlGetMeshVertices(const void *loader, const unsigned int index)`. -/
def mlGetMeshVertices {Obj R : Type} (L : AssimpModelLoader Obj R) (loader : Ptr)
    (index : Nat) (w : World Obj) : Option (Ptr × World Obj) :=
  let ptrLoader : Ptr := loader
  match deref w ptrLoader with
  | none => none
  | some o => some (L.getMeshVertices o index, w)

/-- `const unsigned int* mlGetMeshIndices(const void *loader, const unsigned int index)`. -/
def mlGetMeshIndices {Obj R : Type} (L : AssimpModelLoader Obj R) (loader : Ptr)
    (index : Nat) (w : World Obj) : Option (Ptr × World Obj) :=
  let ptrLoader : Ptr := loader
  match deref w ptrLoader with
  | none => none
  | some o => some (L.getMeshIndices o index, w)

/-- `const int mlGetMeshIsDiffuseMapLoaded(const void *loader, const unsigned int index)`:
the `bool` of the loader is returned as an `int`. -/
def mlGetMeshIsDiffuseMapLoaded {Obj R : Type} (L : AssimpModelLoader Obj R) (loader : Ptr)
    (index : Nat) (w : World Obj) : Option (Int × World Obj) :=
  let ptrLoader : Ptr := loader
  match deref w ptrLoader with
  | none => none
  | some o => some (boolToInt (L.getMeshIsDiffuseMapLoaded o index), w)

/-- `const char* mlGetMeshDiffuseMap(const void *loader, const unsigned int index)`. -/
def mlGetMeshDiffuseMap {Obj R : Type} (L : AssimpModelLoader Obj R) (loader : Ptr)
    (index : Nat) (w : World Obj) : Option (String × World Obj) :=
  let ptrLoader : Ptr := loader
  match deref w ptrLoader with
  | none => none
  | some o => some (L.getMeshDiffuseMap o index, w)

/-- `const int mlGetMeshIsSpecularMapLoaded(const void *loader, const unsigned int index)`:
the `bool` of the loader is returned as an `int`. -/
def mlGetMeshIsSpecularMapLoaded {Obj R : Type} (L : AssimpModelLoader Obj R) (loader : Ptr)
    (index : Nat) (w : World Obj) : Option (Int × World Obj) :=
  let ptrLoader : Ptr := loader
  match deref w ptrLoader with
  | none => none
  | some o => some (boolToInt (L.getMeshIsSpecularMapLoaded o index), w)

/-- `const char* mlGetMeshSpecularMap(const void *loader, const unsigned int index)`. -/
def mlGetMeshSpecularMap {Obj R : Type} (L : AssimpModelLoader Obj R) (loader : Ptr)
    (index : Nat) (w : World Obj) : Option (String × World Obj) :=
  let ptrLoader : Ptr := loader
  match deref w ptrLoader with
  | none => none
  | some o => some (L.getMeshSpecularMap o index, w)

/-! ## A sample loader, to run the interface on concrete inputs -/

/-- One mesh of the sample loader. -/
structure SampleMesh where
  /-- The number of vertices. -/
  numVertices : Nat
  /-- The number of indices. -/
  numIndices : Nat
  /-- The address of the vertex buffer. -/
  vertices : Ptr
  /-- The address of the index buffer. -/
  indices : Ptr
  /-- The diffuse map, when the mesh has one. -/
  diffuseMap : Option String
  /-- The specular map, when the mesh has one. -/
  specularMap : Option String
  deriving DecidableEq, Repr

/-- The mesh the sample loader answers with for an index that is out of range. -/
def SampleMesh.absent : SampleMesh :=
  { numVertices := 0, numIndices := 0, vertices := 0, indices := 0,
    diffuseMap := none, specularMap := none }

/-- The only file the sample loader can read, `"cube.obj"`: one mesh of 8 vertices and 36
indices with a diffuse map and no specular map. -/
def sampleCube : List SampleMesh :=
  [{ numVertices := 8, numIndices := 36, vertices := 4096, indices := 8192,
     diffuseMap := some "cube_d.png", specularMap := none }]

/-- A sample loader class: an object is the list of its meshes, loading `"cube.obj"`
succeeds and loading any other path fails and leaves the object without meshes. -/
def sampleLoader : AssimpModelLoader (List SampleMesh) Bool where
  ctor := []
  loadAssimpModel := fun _ path => if path = "cube.obj" then (true, sampleCube) else (false, [])
  getNumMeshes := fun o => o.length
  getNumVerticesInMesh := fun o i => (o.getD i SampleMesh.absent).numVertices
  getNumIndicesInMesh := fun o i => (o.getD i SampleMesh.absent).numIndices
  getMeshVertices := fun o i => (o.getD i SampleMesh.absent).vertices
  getMeshIndices := fun o i => (o.getD i SampleMesh.absent).indices
  getMeshIsDiffuseMapLoaded := fun o i => (o.getD i SampleMesh.absent).diffuseMap.isSome
  getMeshDiffuseMap := fun o i => (o.getD i SampleMesh.absent).diffuseMap.getD ""
  getMeshIsSpecularMapLoaded := fun o i => (o.getD i SampleMesh.absent).specularMap.isSome
  getMeshSpecularMap := fun o i => (o.getD i SampleMesh.absent).specularMap.getD ""

/-- The state in which no loader is alive and no call has been made. -/
def World.empty (Obj : Type) : World Obj :=
  { heap := fun _ => none, calls := [] }

/-- A state with one live loader, the loaded cube at address 64. -/
def sampleWorld : World (List SampleMesh) :=
  { heap := fun q => if q = 64 then some sampleCube else none,
    calls := [Call.construct 64, Call.loadAssimpModel 64 "cube.obj"] }

/-- The sample loader with a load operation that returns nothing (a `void` method): the
objects it builds are those of `sampleLoader`. -/
def sampleLoaderVoid : AssimpModelLoader (List SampleMesh) Unit where
  ctor := []
  loadAssimpModel := fun _ path => if path = "cube.obj" then ((), sampleCube) else ((), [])
  getNumMeshes := fun o => o.length
  getNumVerticesInMesh := fun o i => (o.getD i SampleMesh.absent).numVertices
  getNumIndicesInMesh := fun o i => (o.getD i SampleMesh.absent).numIndices
  getMeshVertices := fun o i => (o.getD i SampleMesh.absent).vertices
  getMeshIndices := fun o i => (o.getD i SampleMesh.absent).indices
  getMeshIsDiffuseMapLoaded := fun o i => (o.getD i SampleMesh.absent).diffuseMap.isSome
  getMeshDiffuseMap := fun o i => (o.getD i SampleMesh.absent).diffuseMap.getD ""
  getMeshIsSpecularMapLoaded := fun o i => (o.getD i SampleMesh.absent).specularMap.isSome
  getMeshSpecularMap := fun o i => (o.getD i SampleMesh.absent).specularMap.getD ""

/-- A loader class whose indexed accessors answer from the index alone, and differently
from one another: it has no meshes, so every index is out of range. -/
def echoLoader : AssimpModelLoader Unit Unit where
  ctor := ()
  loadAssimpModel := fun _ _ => ((), ())
  getNumMeshes := fun _ => 0
  getNumVerticesInMesh := fun _ i => i
  getNumIndicesInMesh := fun _ i => i / 2
  getMeshVertices := fun _ i => i + 3
  getMeshIndices := fun _ i => i + 4
  getMeshIsDiffuseMapLoaded := fun _ i => i % 2 == 1
  getMeshDiffuseMap := fun _ i => if i % 2 == 1 then "odd_d.png" else ""
  getMeshIsSpecularMapLoaded := fun _ i => i % 2 == 0
  getMeshSpecularMap := fun _ i => if i % 2 == 0 then "even_s.png" else ""

/-- A state with one live `echoLoader` object, at address 8. -/
def echoWorld : World Unit :=
  { heap := fun q => if q = 8 then some () else none,
    calls := [Call.construct 8, Call.loadAssimpModel 8 "echo"] }

/-! ## Running an operation twice -/

/-- Run a state-passing operation, then run it again in the state the first run left:
the two results and the final state. -/
def twice {Obj α : Type} (f : World Obj → Option (α × World Obj)) (w : World Obj) :
    Option (α × α × World Obj) :=
  match f w with
  | none => none
  | some (r1, w1) =>
    match f w1 with
    | none => none
    | some (r2, w2) => some (r1, r2, w2)

/-- The operation `f` is read-only in the state `w`: it returns a result, the state after
it is `w` itself, and run twice in a row it returns that result both times. -/
def ReadOnly {Obj α : Type} (f : World Obj → Option (α × World Obj)) (w : World Obj) : Prop :=
  ∃ r : α, f w = some (r, w) ∧ twice f w = some (r, r, w)

/-! ## Helper lemmas -/

theorem World.store_same {Obj : Type} (w : World Obj) (p : Ptr) (v : Option Obj) :
    w.store p v p = v := by
  simp [World.store]

theorem World.store_other {Obj : Type} (w : World Obj) (p q : Ptr) (v : Option Obj)
    (h : q ≠ p) : w.store p v q = w.heap q := by
  simp [World.store, h]

/-- What `mlLoadAssimpModel` returns when the allocator hands out a fresh non-null address. -/
theorem mlLoadAssimpModel_eq {Obj R : Type} (L : AssimpModelLoader Obj R) (p : Ptr)
    (path : String) (w : World Obj) (hp : p ≠ nullptr) (hfresh : w.heap p = none) :
    mlLoadAssimpModel L p path w =
      some (p, { heap := fun q => if q = p then some (L.loadAssimpModel L.ctor path).2
                                  else w.heap q,
                 calls := w.calls ++ [Call.construct p, Call.loadAssimpModel p path] }) := by
  simp only [mlLoadAssimpModel, operatorNew, if_neg hp, hfresh, callLoadAssimpModel, deref,
    World.store_same]
  rw [Option.some.injEq, Prod.mk.injEq, World.mk.injEq]
  refine ⟨rfl, ?_, by simp⟩
  funext q
  by_cases hq : q = p <;> simp [World.store, hq]

/-- What `mlDestroyAssimpModelLoader` returns for a non-null handle of a live loader. -/
theorem mlDestroyAssimpModelLoader_eq {Obj : Type} (w : World Obj) (h : Ptr) (o : Obj)
    (hnn : h ≠ nullptr) (hlive : w.heap h = some o) :
    mlDestroyAssimpModelLoader h w =
      some { heap := w.store h none, calls := w.calls ++ [Call.destruct h] } := by
  simp [mlDestroyAssimpModelLoader, operatorDelete, hnn, hlive]

/-- An operation that answers `r` and leaves the state alone is read-only. -/
theorem readOnly_of_eq {Obj α : Type} (f : World Obj → Option (α × World Obj))
    (w : World Obj) (r : α) (h : f w = some (r, w)) : ReadOnly f w :=
  ⟨r, h, by simp [twice, h]⟩

/-! ## Creation and destruction -/

/-- C1: for every path, when the allocator hands out a fresh non-null address `p`,
`mlLoadAssimpModel` constructs one loader at `p`, calls `loadAssimpModel` on it once with
exactly that path, leaves every other loader alone and returns `p`; the loader behind the
returned handle is the constructed object after the load, and each of the nine accessors
called on the returned handle reads that object. -/
theorem mlLoadAssimpModel_constructs_loads_returns {Obj R : Type}
    (L : AssimpModelLoader Obj R) (p : Ptr) (path : String) (w : World Obj)
    (hp : p ≠ nullptr) (hfresh : w.heap p = none) :
    ∃ w' : World Obj,
      mlLoadAssimpModel L p path w = some (p, w') ∧
      w'.calls = w.calls ++ [Call.construct p, Call.loadAssimpModel p path] ∧
      w'.heap p = some (L.loadAssimpModel L.ctor path).2 ∧
      (∀ q : Ptr, q ≠ p → w'.heap q = w.heap q) ∧
      ∀ i : Nat,
        mlGetNumMeshes L p w' =
          some (L.getNumMeshes (L.loadAssimpModel L.ctor path).2, w') ∧
        mlGetNumVerticesInMesh L p i w' =
          some (L.getNumVerticesInMesh (L.loadAssimpModel L.ctor path).2 i, w') ∧
        mlGetNumIndicesInMesh L p i w' =
          some (L.getNumIndicesInMesh (L.loadAssimpModel L.ctor path).2 i, w') ∧
        mlGetMeshVertices L p i w' =
          some (L.getMeshVertices (L.loadAssimpModel L.ctor path).2 i, w') ∧
        mlGetMeshIndices L p i w' =
          some (L.getMeshIndices (L.loadAssimpModel L.ctor path).2 i, w') ∧
        mlGetMeshIsDiffuseMapLoaded L p i w' =
          some (boolToInt (L.getMeshIsDiffuseMapLoaded (L.loadAssimpModel L.ctor path).2 i), w') ∧
        mlGetMeshDiffuseMap L p i w' =
          some (L.getMeshDiffuseMap (L.loadAssimpModel L.ctor path).2 i, w') ∧
        mlGetMeshIsSpecularMapLoaded L p i w' =
          some (boolToInt (L.getMeshIsSpecularMapLoaded (L.loadAssimpModel L.ctor path).2 i), w') ∧
        mlGetMeshSpecularMap L p i w' =
          some (L.getMeshSpecularMap (L.loadAssimpModel L.ctor path).2 i, w') := by
  refine ⟨_, mlLoadAssimpModel_eq L p path w hp hfresh, rfl, by simp, ?_, ?_⟩
  · intro q hq
    simp [hq]
  · intro i
    simp [mlGetNumMeshes, mlGetNumVerticesInMesh, mlGetNumIndicesInMesh, mlGetMeshVertices,
      mlGetMeshIndices, mlGetMeshIsDiffuseMapLoaded, mlGetMeshDiffuseMap,
      mlGetMeshIsSpecularMapLoaded, mlGetMeshSpecularMap, deref]

/-- Witness of C1: loading `"cube.obj"` with the sample loader in the empty state, the
allocator handing out address 64, returns the handle 64, behind which is the loaded cube;
`mlGetNumMeshes` on that handle answers 1. -/
theorem mlLoadAssimpModel_constructs_loads_returns_witness :
    (64 ≠ nullptr ∧ (World.empty (List SampleMesh)).heap 64 = none) ∧
    ∃ w' : World (List SampleMesh),
      mlLoadAssimpModel sampleLoader 64 "cube.obj" (World.empty _) = some (64, w') ∧
      w'.calls = [Call.construct 64, Call.loadAssimpModel 64 "cube.obj"] ∧
      w'.heap 64 = some sampleCube ∧
      mlGetNumMeshes sampleLoader 64 w' = some (1, w') :=
  ⟨⟨by decide, rfl⟩,
    (mlLoadAssimpModel_constructs_loads_returns sampleLoader 64 "cube.obj" (World.empty _)
      (by decide) rfl).elim
      fun w' h => ⟨w', h.1, h.2.1, h.2.2.1, (h.2.2.2.2 0).1⟩⟩

/-- C2: for every state and every non-null handle `h` that points to a live loader,
`mlDestroyAssimpModelLoader h` returns, the loader at `h` is no longer alive afterwards,
the only call made is the release of `h`, and at every other address the heap holds what
it held before. -/
theorem mlDestroyAssimpModelLoader_releases {Obj : Type} (w : World Obj) (h : Ptr) (o : Obj)
    (hnn : h ≠ nullptr) (hlive : w.heap h = some o) :
    ∃ w' : World Obj,
      mlDestroyAssimpModelLoader h w = some w' ∧
      w'.heap h = none ∧
      w'.calls = w.calls ++ [Call.destruct h] ∧
      ∀ q : Ptr, q ≠ h → w'.heap q = w.heap q := by
  exact ⟨_, mlDestroyAssimpModelLoader_eq w h o hnn hlive, World.store_same w h none, rfl,
    fun q hq => World.store_other w h q none hq⟩

/-- Witness of C2: destroying the handle 64 of the sample state releases the cube. -/
theorem mlDestroyAssimpModelLoader_releases_witness :
    (64 ≠ nullptr ∧ sampleWorld.heap 64 = some sampleCube) ∧
    ∃ w' : World (List SampleMesh),
      mlDestroyAssimpModelLoader 64 sampleWorld = some w' ∧
      w'.heap 64 = none ∧
      w'.calls = [Call.construct 64, Call.loadAssimpModel 64 "cube.obj", Call.destruct 64] ∧
      ∀ q : Ptr, q ≠ 64 → w'.heap q = sampleWorld.heap q :=
  ⟨⟨by decide, rfl⟩,
    mlDestroyAssimpModelLoader_releases sampleWorld 64 sampleCube (by decide) rfl⟩

/-- C3: for every state, `mlDestroyAssimpModelLoader` called with the null handle returns
and the state after the call is the state before it: the same live loaders with the same
contents, and no release among the calls. -/
theorem mlDestroyAssimpModelLoader_null {Obj : Type} (w : World Obj) :
    mlDestroyAssimpModelLoader nullptr w = some w := by
  simp [mlDestroyAssimpModelLoader]

/-- C4: `mlLoadAssimpModel` signals nothing of its own.  For every path and every loader
class, it returns the address of the constructed loader, which is not null, and the object
behind it is whatever the load left there.  The result of the load is not inspected: with
a second loader class that builds the same objects and returns other results (of any
type), the handle and the state after the call are the same. -/
theorem mlLoadAssimpModel_signals_no_error {Obj R R' : Type}
    (L : AssimpModelLoader Obj R) (L' : AssimpModelLoader Obj R')
    (p : Ptr) (path : String) (w : World Obj)
    (hp : p ≠ nullptr) (hfresh : w.heap p = none)
    (hctor : L'.ctor = L.ctor)
    (hobj : ∀ (o : Obj) (s : String), (L'.loadAssimpModel o s).2 = (L.loadAssimpModel o s).2) :
    (∃ (h : Ptr) (w' : World Obj),
      mlLoadAssimpModel L p path w = some (h, w') ∧ h ≠ nullptr ∧
      w'.heap h = some (L.loadAssimpModel L.ctor path).2) ∧
    mlLoadAssimpModel L' p path w = mlLoadAssimpModel L p path w := by
  refine ⟨⟨p, _, mlLoadAssimpModel_eq L p path w hp hfresh, hp, by simp⟩, ?_⟩
  rw [mlLoadAssimpModel_eq L p path w hp hfresh, mlLoadAssimpModel_eq L' p path w hp hfresh,
    hctor, hobj]

/-- Witness of C4: loading a file that the sample loader cannot read still returns the
non-null handle 64; the failure shows only in the object behind it, which has no meshes;
and the loader whose load returns nothing gives the same handle and state. -/
theorem mlLoadAssimpModel_signals_no_error_witness :
    (sampleLoader.loadAssimpModel sampleLoader.ctor "missing.obj").1 = false ∧
    (∃ (h : Ptr) (w' : World (List SampleMesh)),
      mlLoadAssimpModel sampleLoader 64 "missing.obj" (World.empty _) = some (h, w') ∧
      h ≠ nullptr ∧ w'.heap h = some []) ∧
    mlLoadAssimpModel sampleLoaderVoid 64 "missing.obj" (World.empty _) =
      mlLoadAssimpModel sampleLoader 64 "missing.obj" (World.empty _) :=
  ⟨by decide,
    mlLoadAssimpModel_signals_no_error sampleLoader sampleLoaderVoid 64 "missing.obj"
      (World.empty _) (by decide) rfl rfl
      (fun o s => by
        by_cases hs : s = "cube.obj" <;> simp [sampleLoader, sampleLoaderVoid, hs])⟩

/-- C10: for every state and path, when the allocator hands out a fresh non-null address,
`mlLoadAssimpModel` followed by `mlDestroyAssimpModelLoader` on the handle it returned
leaves the heap it started from: the same live loaders with the same contents.  The handle
is not null, and the destroy releases it: the calls made are one construction, one load
and one release, all on that handle. -/
theorem mlLoadAssimpModel_then_destroy {Obj R : Type} (L : AssimpModelLoader Obj R)
    (p : Ptr) (path : String) (w : World Obj)
    (hp : p ≠ nullptr) (hfresh : w.heap p = none) :
    ∃ (h : Ptr) (w1 w2 : World Obj),
      mlLoadAssimpModel L p path w = some (h, w1) ∧
      h ≠ nullptr ∧
      mlDestroyAssimpModelLoader h w1 = some w2 ∧
      w2.heap = w.heap ∧
      w2.calls = w.calls ++
        [Call.construct h, Call.loadAssimpModel h path, Call.destruct h] := by
  refine ⟨p, _, _, mlLoadAssimpModel_eq L p path w hp hfresh, hp,
    mlDestroyAssimpModelLoader_eq _ p (L.loadAssimpModel L.ctor path).2 hp (by simp), ?_, ?_⟩
  · funext q
    by_cases hq : q = p
    · subst hq
      simp [World.store, hfresh]
    · simp [World.store, hq]
  · simp

/-- Witness of C10: in the sample state, where the cube is alive at 64, loading a second
cube at address 128 and destroying it leaves the heap of the sample state. -/
theorem mlLoadAssimpModel_then_destroy_witness :
    (128 ≠ nullptr ∧ sampleWorld.heap 128 = none) ∧
    ∃ (h : Ptr) (w1 w2 : World (List SampleMesh)),
      mlLoadAssimpModel sampleLoader 128 "cube.obj" sampleWorld = some (h, w1) ∧
      h ≠ nullptr ∧
      mlDestroyAssimpModelLoader h w1 = some w2 ∧
      w2.heap = sampleWorld.heap ∧
      w2.calls = sampleWorld.calls ++
        [Call.construct h, Call.loadAssimpModel h "cube.obj", Call.destruct h] :=
  ⟨⟨by decide, rfl⟩,
    mlLoadAssimpModel_then_destroy sampleLoader 128 "cube.obj" sampleWorld (by decide) rfl⟩

/-! ## The accessors -/

/-- C5: for every handle `h` of a live loader `o` and every index `i`, `mlGetNumMeshes`
returns the mesh count of `o`, `mlGetNumVerticesInMesh` the vertex count of mesh `i` of
`o` and `mlGetNumIndicesInMesh` the index count of mesh `i` of `o`, whatever the loader
class computes for them. -/
theorem count_accessors_pass_through {Obj R : Type} (L : AssimpModelLoader Obj R)
    (w : World Obj) (h : Ptr) (o : Obj) (i : Nat) (hlive : w.heap h = some o) :
    mlGetNumMeshes L h w = some (L.getNumMeshes o, w) ∧
    mlGetNumVerticesInMesh L h i w = some (L.getNumVerticesInMesh o i, w) ∧
    mlGetNumIndicesInMesh L h i w = some (L.getNumIndicesInMesh o i, w) := by
  simp [mlGetNumMeshes, mlGetNumVerticesInMesh, mlGetNumIndicesInMesh, deref, hlive]

/-- Witness of C5: the cube of the sample state has 1 mesh, of 8 vertices and 36 indices. -/
theorem count_accessors_pass_through_witness :
    sampleWorld.heap 64 = some sampleCube ∧
    mlGetNumMeshes sampleLoader 64 sampleWorld = some (1, sampleWorld) ∧
    mlGetNumVerticesInMesh sampleLoader 64 0 sampleWorld = some (8, sampleWorld) ∧
    mlGetNumIndicesInMesh sampleLoader 64 0 sampleWorld = some (36, sampleWorld) :=
  ⟨rfl, count_accessors_pass_through sampleLoader sampleWorld 64 sampleCube 0 rfl⟩

/-- C6: for every handle `h` of a live loader `o` and every index `i`,
`mlGetMeshIsDiffuseMapLoaded` returns 1 when the diffuse-map flag of mesh `i` of `o` is
true and 0 when it is false, `mlGetMeshIsSpecularMapLoaded` does so for the specular-map
flag, `mlGetMeshDiffuseMap` returns the diffuse-map path of mesh `i` of `o` and
`mlGetMeshSpecularMap` its specular-map path. -/
theorem material_accessors_pass_through {Obj R : Type} (L : AssimpModelLoader Obj R)
    (w : World Obj) (h : Ptr) (o : Obj) (i : Nat) (hlive : w.heap h = some o) :
    mlGetMeshIsDiffuseMapLoaded L h i w =
      some (if L.getMeshIsDiffuseMapLoaded o i = true then 1 else 0, w) ∧
    mlGetMeshIsSpecularMapLoaded L h i w =
      some (if L.getMeshIsSpecularMapLoaded o i = true then 1 else 0, w) ∧
    mlGetMeshDiffuseMap L h i w = some (L.getMeshDiffuseMap o i, w) ∧
    mlGetMeshSpecularMap L h i w = some (L.getMeshSpecularMap o i, w) := by
  simp [mlGetMeshIsDiffuseMapLoaded, mlGetMeshIsSpecularMapLoaded, mlGetMeshDiffuseMap,
    mlGetMeshSpecularMap, boolToInt, deref, hlive]

/-- Witness of C6: the mesh of the cube has the diffuse map `"cube_d.png"` and no specular
map. -/
theorem material_accessors_pass_through_witness :
    sampleWorld.heap 64 = some sampleCube ∧
    mlGetMeshIsDiffuseMapLoaded sampleLoader 64 0 sampleWorld = some (1, sampleWorld) ∧
    mlGetMeshIsSpecularMapLoaded sampleLoader 64 0 sampleWorld = some (0, sampleWorld) ∧
    mlGetMeshDiffuseMap sampleLoader 64 0 sampleWorld = some ("cube_d.png", sampleWorld) ∧
    mlGetMeshSpecularMap sampleLoader 64 0 sampleWorld = some ("", sampleWorld) :=
  ⟨rfl, material_accessors_pass_through sampleLoader sampleWorld 64 sampleCube 0 rfl⟩

/-- C7: for every state, every handle `h` of a live loader and every index `i`, each of the
nine accessors is read-only: it returns a result, the state after the call (the live
loaders, their contents and the calls made) is the state before it, and called twice in a
row with the same arguments it returns the same result both times. -/
theorem accessors_read_only {Obj R : Type} (L : AssimpModelLoader Obj R)
    (w : World Obj) (h : Ptr) (o : Obj) (i : Nat) (hlive : w.heap h = some o) :
    ReadOnly (mlGetNumMeshes L h) w ∧
    ReadOnly (mlGetNumVerticesInMesh L h i) w ∧
    ReadOnly (mlGetNumIndicesInMesh L h i) w ∧
    ReadOnly (mlGetMeshVertices L h i) w ∧
    ReadOnly (mlGetMeshIndices L h i) w ∧
    ReadOnly (mlGetMeshIsDiffuseMapLoaded L h i) w ∧
    ReadOnly (mlGetMeshDiffuseMap L h i) w ∧
    ReadOnly (mlGetMeshIsSpecularMapLoaded L h i) w ∧
    ReadOnly (mlGetMeshSpecularMap L h i) w := by
  refine ⟨?_, ?_, ?_, ?_, ?_, ?_, ?_, ?_, ?_⟩
  · exact readOnly_of_eq _ w (L.getNumMeshes o) (by simp [mlGetNumMeshes, deref, hlive])
  · exact readOnly_of_eq _ w (L.getNumVerticesInMesh o i)
      (by simp [mlGetNumVerticesInMesh, deref, hlive])
  · exact readOnly_of_eq _ w (L.getNumIndicesInMesh o i)
      (by simp [mlGetNumIndicesInMesh, deref, hlive])
  · exact readOnly_of_eq _ w (L.getMeshVertices o i)
      (by simp [mlGetMeshVertices, deref, hlive])
  · exact readOnly_of_eq _ w (L.getMeshIndices o i)
      (by simp [mlGetMeshIndices, deref, hlive])
  · exact readOnly_of_eq _ w (boolToInt (L.getMeshIsDiffuseMapLoaded o i))
      (by simp [mlGetMeshIsDiffuseMapLoaded, deref, hlive])
  · exact readOnly_of_eq _ w (L.getMeshDiffuseMap o i)
      (by simp [mlGetMeshDiffuseMap, deref, hlive])
  · exact readOnly_of_eq _ w (boolToInt (L.getMeshIsSpecularMapLoaded o i))
      (by simp [mlGetMeshIsSpecularMapLoaded, deref, hlive])
  · exact readOnly_of_eq _ w (L.getMeshSpecularMap o i)
      (by simp [mlGetMeshSpecularMap, deref, hlive])

/-- Witness of C7: the nine accessors are read-only on the handle 64 of the sample state;
asking twice for the vertex count of mesh 0 answers 8 both times and leaves the state. -/
theorem accessors_read_only_witness :
    sampleWorld.heap 64 = some sampleCube ∧
    (ReadOnly (mlGetNumMeshes sampleLoader 64) sampleWorld ∧
      ReadOnly (mlGetNumVerticesInMesh sampleLoader 64 0) sampleWorld ∧
      ReadOnly (mlGetNumIndicesInMesh sampleLoader 64 0) sampleWorld ∧
      ReadOnly (mlGetMeshVertices sampleLoader 64 0) sampleWorld ∧
      ReadOnly (mlGetMeshIndices sampleLoader 64 0) sampleWorld ∧
      ReadOnly (mlGetMeshIsDiffuseMapLoaded sampleLoader 64 0) sampleWorld ∧
      ReadOnly (mlGetMeshDiffuseMap sampleLoader 64 0) sampleWorld ∧
      ReadOnly (mlGetMeshIsSpecularMapLoaded sampleLoader 64 0) sampleWorld ∧
      ReadOnly (mlGetMeshSpecularMap sampleLoader 64 0) sampleWorld) ∧
    twice (mlGetNumVerticesInMesh sampleLoader 64 0) sampleWorld = some (8, 8, sampleWorld) :=
  ⟨rfl, accessors_read_only sampleLoader sampleWorld 64 sampleCube 0 rfl, rfl⟩

/-- C8: for every handle `h` of a live loader `o` and every index `i`, `mlGetMeshVertices`
returns the very address that `o` gives for the vertex buffer of mesh `i` and
`mlGetMeshIndices` the very address that `o` gives for its index buffer, and the state
after either call is the state before it: nothing is constructed, so no buffer is made. -/
theorem buffer_accessors_pass_through {Obj R : Type} (L : AssimpModelLoader Obj R)
    (w : World Obj) (h : Ptr) (o : Obj) (i : Nat) (hlive : w.heap h = some o) :
    mlGetMeshVertices L h i w = some (L.getMeshVertices o i, w) ∧
    mlGetMeshIndices L h i w = some (L.getMeshIndices o i, w) := by
  simp [mlGetMeshVertices, mlGetMeshIndices, deref, hlive]

/-- Witness of C8: the vertex buffer of the cube is at 4096 and its index buffer at 8192. -/
theorem buffer_accessors_pass_through_witness :
    sampleWorld.heap 64 = some sampleCube ∧
    mlGetMeshVertices sampleLoader 64 0 sampleWorld = some (4096, sampleWorld) ∧
    mlGetMeshIndices sampleLoader 64 0 sampleWorld = some (8192, sampleWorld) :=
  ⟨rfl, buffer_accessors_pass_through sampleLoader sampleWorld 64 sampleCube 0 rfl⟩

/-- C9: the mesh index is not checked.  For every handle `h` of a live loader `o` and every
index `i`, below the mesh count of `o` or not, each of the eight indexed accessors returns
what the loader class answers for `o` at that same `i` (the two flags converted to `int`):
no default, no clamped index. -/
theorem index_unchecked {Obj R : Type} (L : AssimpModelLoader Obj R)
    (w : World Obj) (h : Ptr) (o : Obj) (i : Nat) (hlive : w.heap h = some o) :
    (mlGetNumVerticesInMesh L h i w).map Prod.fst = some (L.getNumVerticesInMesh o i) ∧
    (mlGetNumIndicesInMesh L h i w).map Prod.fst = some (L.getNumIndicesInMesh o i) ∧
    (mlGetMeshVertices L h i w).map Prod.fst = some (L.getMeshVertices o i) ∧
    (mlGetMeshIndices L h i w).map Prod.fst = some (L.getMeshIndices o i) ∧
    (mlGetMeshIsDiffuseMapLoaded L h i w).map Prod.fst =
      some (boolToInt (L.getMeshIsDiffuseMapLoaded o i)) ∧
    (mlGetMeshDiffuseMap L h i w).map Prod.fst = some (L.getMeshDiffuseMap o i) ∧
    (mlGetMeshIsSpecularMapLoaded L h i w).map Prod.fst =
      some (boolToInt (L.getMeshIsSpecularMapLoaded o i)) ∧
    (mlGetMeshSpecularMap L h i w).map Prod.fst = some (L.getMeshSpecularMap o i) := by
  simp [mlGetNumVerticesInMesh, mlGetNumIndicesInMesh, mlGetMeshVertices, mlGetMeshIndices,
    mlGetMeshIsDiffuseMapLoaded, mlGetMeshDiffuseMap, mlGetMeshIsSpecularMapLoaded,
    mlGetMeshSpecularMap, deref, hlive]

/-- Witness of C9: `echoLoader` has no meshes, and at the index 4294967295, the largest
`unsigned int`, the eight indexed accessors return its answers for that index. -/
theorem index_unchecked_witness :
    (echoWorld.heap 8 = some () ∧ echoLoader.getNumMeshes () ≤ 4294967295) ∧
    (mlGetNumVerticesInMesh echoLoader 8 4294967295 echoWorld).map Prod.fst =
      some 4294967295 ∧
    (mlGetNumIndicesInMesh echoLoader 8 4294967295 echoWorld).map Prod.fst =
      some 2147483647 ∧
    (mlGetMeshVertices echoLoader 8 4294967295 echoWorld).map Prod.fst = some 4294967298 ∧
    (mlGetMeshIndices echoLoader 8 4294967295 echoWorld).map Prod.fst = some 4294967299 ∧
    (mlGetMeshIsDiffuseMapLoaded echoLoader 8 4294967295 echoWorld).map Prod.fst = some 1 ∧
    (mlGetMeshDiffuseMap echoLoader 8 4294967295 echoWorld).map Prod.fst =
      some "odd_d.png" ∧
    (mlGetMeshIsSpecularMapLoaded echoLoader 8 4294967295 echoWorld).map Prod.fst = some 0 ∧
    (mlGetMeshSpecularMap echoLoader 8 4294967295 echoWorld).map Prod.fst = some "" :=
  ⟨⟨rfl, by decide⟩, index_unchecked echoLoader echoWorld 8 () 4294967295 rfl⟩

end ARGame
